import Mathlib

/-!
Verification of the provider-based virtual-filesystem core (a TypeScript
reimplementation of the `java.nio.file` API surface).

Shallow embedding of:
- the `Files` facade (`src/unnamed/part_001`): attribute convenience getters,
  existence predicates, `createDirectory`/`createDirectories`, `copy`/`move`
  dispatch, and the stream-copy helper `copyFromStream`;
- the `FileSystems` facade (`src/unnamed/part_002`): scheme-based provider
  lookup (`getFileSystem`) and filesystem creation (`newFileSystem`).

Backends (`FileSystemProvider` implementations) are external collaborators of
this layer: every `Files` operation is parameterised by the provider's
operations, modelled as state-passing functions on an abstract store.
Exceptions are modelled with `Except`; JavaScript control flow (`try`/`catch`
by dynamic `instanceof` tests, `finally` clauses whose own exception replaces
the in-flight one, `for ... of undefined` raising a `TypeError`, reading a
property of `undefined` raising a `TypeError`) is translated explicitly.
-/

deriving instance DecidableEq for Except

namespace Fsjs

/-- Exception taxonomy of the repository (classes under `src/file` and
`src/exception`), plus the JavaScript runtime `TypeError` that untyped
JavaScript operations can raise. `ioError` stands for any other backend
failure class. -/
inductive Exc where
  | fileAlreadyExists (file : String)
  | noSuchFile (file : String)
  | security (msg : String)
  | unsupportedOperation (msg : String)
  | nullPointer (msg : String)
  | providerNotFound (msg : String)
  | illegalArgument (msg : String)
  | fileSystemException (file : String) (otherFile : Option String) (reason : String)
  | typeError (msg : String)
  | ioError (msg : String)
deriving DecidableEq

/-- Modelled from the spec: the repository's `Path` class is not under `src/`
(only the abstract `FileSystem` factory mentions it); section 3 of the spec
describes it as an immutable value made of an owning-filesystem reference, an
ordered sequence of name components and an absolute/relative flag. The owning
filesystem is represented by the numeric identifier of its provider. -/
structure Path where
  providerId : Nat
  absolute : Bool
  names : List String
deriving DecidableEq

/-- Modelled from the spec: string form of a path, separator "/" (used only in
exception messages carried by `Exc`). -/
def Path.toString (p : Path) : String :=
  (if p.absolute then "/" else "") ++ String.intercalate "/" p.names

/-- Modelled from the spec: parent path, dropping the last name component;
`none` when there is no parent (a root path, or a single-name relative path). -/
def Path.getParent (p : Path) : Option Path :=
  match p.names with
  | [] => none
  | [_] => if p.absolute then some { p with names := [] } else none
  | _ :: _ :: _ => some { p with names := p.names.dropLast }

/-- Modelled from the spec: resolving a single (relative) name against a path
concatenates the component sequences (spec section 4.1, `resolve`). -/
def Path.resolveName (p : Path) (name : String) : Path :=
  { p with names := p.names ++ [name] }

/-- Length of the longest common prefix of two component lists. -/
def commonPrefixLength : List String → List String → Nat
  | a :: as, b :: bs => if a == b then commonPrefixLength as bs + 1 else 0
  | _, _ => 0

/-- Modelled from the spec: `relativize` (spec section 4.1) requires the same
filesystem and the same absoluteness, else fails with `IllegalArgument`; it
emits one ".." per remaining component of `p` past the longest common prefix,
followed by the remaining components of `q`. The result is returned as the
name sequence the caller iterates over. -/
def Path.relativizeNames (p q : Path) : Except Exc (List String) :=
  if p.providerId != q.providerId || p.absolute != q.absolute then
    Except.error (Exc.illegalArgument "relativize requires the same file system and absoluteness")
  else
    let k := commonPrefixLength p.names q.names
    Except.ok (List.replicate (p.names.length - k) ".." ++ q.names.drop k)

/-- Kind of a stored entry in the modelled backend store. -/
inductive EntryKind where
  | dirEntry
  | fileEntry
  | symlinkEntry
deriving DecidableEq

/-- Abstract backend store: absolute name sequences mapped to entry kinds
(the root directory exists implicitly). -/
abbrev FS := List (List String × EntryKind)

/-- Computation model for provider and facade operations: state passing over
the store, with the `Except` value recording normal return or thrown
exception. A thrown exception does not roll the store back (a real backend
keeps whatever the operation already did). -/
abbrev M (α : Type) := FS → Except Exc α × FS

/-- Entry lookup in the modelled store. -/
def FS.lookup (s : FS) (k : List String) : Option EntryKind :=
  match s.find? (fun e => e.1 == k) with
  | some e => some e.2
  | none => none

/-- Link options (`src/file/LinkOption`). -/
inductive LinkOption where
  | NOFOLLOW_LINKS
deriving DecidableEq

/-- Access modes (`src/file/AccessMode`). -/
inductive AccessMode where
  | READ
  | WRITE
  | EXECUTE
deriving DecidableEq

/-- Open options (`src/file/StandardOpenOption`). -/
inductive StandardOpenOption where
  | READ
  | WRITE
  | APPEND
  | TRUNCATE_EXISTING
  | CREATE
  | CREATE_NEW
deriving DecidableEq

/-- Copy options (`src/file/StandardCopyOption`). -/
inductive StandardCopyOption where
  | REPLACE_EXISTING
  | COPY_ATTRIBUTES
  | ATOMIC_MOVE
deriving DecidableEq

/-- String form of a copy option, used in the `UnsupportedOperationException`
message built by `Files.copyFromStream`. -/
def StandardCopyOption.label : StandardCopyOption → String
  | .REPLACE_EXISTING => "REPLACE_EXISTING"
  | .COPY_ATTRIBUTES => "COPY_ATTRIBUTES"
  | .ATOMIC_MOVE => "ATOMIC_MOVE"

/-- Basic file attributes (`src/file/attribute/BasicFileAttributes`), reduced
to the accessors the `Files` facade reads. -/
structure BasicFileAttributes where
  isDirectory : Bool
  isRegularFile : Bool
  isSymbolicLink : Bool
  size : Int
  lastModifiedTime : Int
deriving DecidableEq

/-- Opaque handle of a readable or writable stream produced by a provider. -/
abbrev StreamHandle := Nat

/-- Modelled from the spec: behaviour of the Web-stream objects
(`ReadableStream.pipeTo`, `WritableStream.close`, `ReadableStream.cancel`)
that `Files.copyFromStream`/`copyToStream` invoke; these objects come from the
backend and are external to this layer, so their behaviour is a parameter. -/
structure StreamWorld where
  pipeTo : StreamHandle → StreamHandle → M Unit
  close : StreamHandle → M Unit
  cancel : StreamHandle → M Unit

/-- Modelled from the spec: the provider SPI contract (spec section 6): the
operations the `Files` facade dispatches to. Providers are external
collaborators, so each operation is an arbitrary state-passing function. `id`
models JavaScript reference identity of the provider object (the facade
compares providers with `===`). -/
structure FileSystemProvider where
  id : Nat
  checkAccess : Path → Option (List AccessMode) → M Unit
  readAttributesWithType : Path → Option String → Option (List LinkOption) → M BasicFileAttributes
  createDirectory : Path → M Unit
  deleteIfExists : Path → M Bool
  newOutputStream : Path → List StandardOpenOption → M StreamHandle
  newInputStream : Path → M StreamHandle
  copy : Path → Path → Option (List (Option StandardCopyOption)) → M Unit
  move : Path → Path → Option (List (Option StandardCopyOption)) → M Unit
  toAbsolutePath : Path → M Path

/-- Assignment of provider objects to provider identifiers; `Files.provider`
resolves a path to the provider of its owning filesystem through it. -/
abbrev ProviderEnv := Nat → FileSystemProvider

/-- Modelled from the spec: `CopyMoveHelper` (`copyToForeignTarget`,
`moveToForeignTarget`) is imported by `Files` but its source is not under
`src/`; the two streaming fallback operations are taken as parameters. -/
structure CopyMoveHelperOps where
  copyToForeignTarget : Path → Path → Option (List (Option StandardCopyOption)) → M Unit
  moveToForeignTarget : Path → Path → Option (List (Option StandardCopyOption)) → M Unit

/-- Embeds `Files.provider`: `path.getFileSystem().provider()`. -/
def Files.provider (env : ProviderEnv) (path : Path) : FileSystemProvider :=
  env path.providerId

/-- Embeds `Files.readAttributesWithType`: direct delegation to the provider. -/
def Files.readAttributesWithType (env : ProviderEnv) (path : Path)
    (type : Option String) (options : Option (List LinkOption)) : M BasicFileAttributes :=
  (Files.provider env path).readAttributesWithType path type options

/-- Embeds `Files.isDirectory`: reads the attributes with the caller's link
options and an `undefined` type; any exception is converted into `false`. -/
def Files.isDirectory (env : ProviderEnv) (path : Path)
    (options : Option (List LinkOption)) : M Bool := fun s =>
  match Files.readAttributesWithType env path none options s with
  | (Except.ok a, s₁) => (Except.ok a.isDirectory, s₁)
  | (Except.error _, s₁) => (Except.ok false, s₁)

/-- Embeds `Files.isRegularFile`: like `isDirectory`, converting any exception
into `false`. -/
def Files.isRegularFile (env : ProviderEnv) (path : Path)
    (options : Option (List LinkOption)) : M Bool := fun s =>
  match Files.readAttributesWithType env path none options s with
  | (Except.ok a, s₁) => (Except.ok a.isRegularFile, s₁)
  | (Except.error _, s₁) => (Except.ok false, s₁)

/-- Embeds `Files.isSymbolicLink`: attribute read with `NOFOLLOW_LINKS`,
converting any exception into `false`. -/
def Files.isSymbolicLink (env : ProviderEnv) (path : Path) : M Bool := fun s =>
  match Files.readAttributesWithType env path none (some [LinkOption.NOFOLLOW_LINKS]) s with
  | (Except.ok a, s₁) => (Except.ok a.isSymbolicLink, s₁)
  | (Except.error _, s₁) => (Except.ok false, s₁)

/-- Embeds `Files.getLastModifiedTime`: attribute read with the caller's link
options; there is no `try`/`catch` in the source, so failures propagate. -/
def Files.getLastModifiedTime (env : ProviderEnv) (path : Path)
    (options : Option (List LinkOption)) : M Int := fun s =>
  match Files.readAttributesWithType env path none options s with
  | (Except.ok a, s₁) => (Except.ok a.lastModifiedTime, s₁)
  | (Except.error e, s₁) => (Except.error e, s₁)

/-- Embeds `Files.size`: attribute read with `undefined` type and options;
there is no `try`/`catch` in the source, so failures propagate. -/
def Files.size (env : ProviderEnv) (path : Path) : M Int := fun s =>
  match Files.readAttributesWithType env path none none s with
  | (Except.ok a, s₁) => (Except.ok a.size, s₁)
  | (Except.error e, s₁) => (Except.error e, s₁)

/-- Embeds `Files.followLinks`: `true` unless the option list contains
`NOFOLLOW_LINKS` (the source loops over the list, setting the flag to `false`
on every `NOFOLLOW_LINKS` element). -/
def Files.followLinks (options : Option (List LinkOption)) : Bool :=
  match options with
  | none => true
  | some opts => opts.foldl (fun _ opt => match opt with | LinkOption.NOFOLLOW_LINKS => false) true

/-- Shared body of the `try` blocks of `Files.exists` and `Files.notExists`
(the two methods duplicate it verbatim): link-following `checkAccess`, or an
attribute read with `NOFOLLOW_LINKS` when links are not followed. -/
def Files.existsCheck (env : ProviderEnv) (path : Path)
    (options : Option (List LinkOption)) : M Unit := fun s =>
  if Files.followLinks options then
    (Files.provider env path).checkAccess path none s
  else
    match Files.readAttributesWithType env path (some "BasicFileAttributes")
        (some [LinkOption.NOFOLLOW_LINKS]) s with
    | (Except.ok _, s₁) => (Except.ok (), s₁)
    | (Except.error e, s₁) => (Except.error e, s₁)

/-- Embeds `Files.exists`: `true` when the check returns, `false` on any
exception. -/
def Files.exists (env : ProviderEnv) (path : Path)
    (options : Option (List LinkOption)) : M Bool := fun s =>
  match Files.existsCheck env path options s with
  | (Except.ok _, s₁) => (Except.ok true, s₁)
  | (Except.error _, s₁) => (Except.ok false, s₁)

/-- Embeds `Files.notExists`: `false` when the check returns, `true` when it
throws `NoSuchFileException`, `false` on every other exception. -/
def Files.notExists (env : ProviderEnv) (path : Path)
    (options : Option (List LinkOption)) : M Bool := fun s =>
  match Files.existsCheck env path options s with
  | (Except.ok _, s₁) => (Except.ok false, s₁)
  | (Except.error x, s₁) =>
    match x with
    | Exc.noSuchFile _ => (Except.ok true, s₁)
    | _ => (Except.ok false, s₁)

/-- Embeds `Files.createDirectory`: delegation to the provider, returning the
directory path. -/
def Files.createDirectory (env : ProviderEnv) (dir : Path) : M Path := fun s =>
  match (Files.provider env dir).createDirectory dir s with
  | (Except.ok _, s₁) => (Except.ok dir, s₁)
  | (Except.error e, s₁) => (Except.error e, s₁)

/-- Embeds `Files.createAndCheckIsDirectory`. The source catches every
exception and re-throws only a `FileAlreadyExistsException` for which
`isDirectory(dir, NOFOLLOW_LINKS)` is `false` (short-circuit: `isDirectory` is
evaluated only when the exception is a `FileAlreadyExistsException`); every
other exception is swallowed. -/
def Files.createAndCheckIsDirectory (env : ProviderEnv) (dir : Path) : M Unit := fun s =>
  match Files.createDirectory env dir s with
  | (Except.ok _, s₁) => (Except.ok (), s₁)
  | (Except.error x, s₁) =>
    match x with
    | Exc.fileAlreadyExists f =>
      match Files.isDirectory env dir (some [LinkOption.NOFOLLOW_LINKS]) s₁ with
      | (Except.ok isDir, s₂) =>
        if !isDir then (Except.error (Exc.fileAlreadyExists f), s₂) else (Except.ok (), s₂)
      | (Except.error e, s₂) => (Except.error e, s₂)
    | _ => (Except.ok (), s₁)

/-- Embeds the parent-search `while` loop of `Files.createDirectories`:
`checkAccess` each ancestor, stopping at the first one that does not throw;
the `catch` block swallows every exception (its `instanceof NoSuchFileException`
test guards an empty branch) and the loop steps to `getParent()`. The `fuel`
argument drives the structural recursion; each step shortens the name sequence,
so `parent.names.length` steps always suffice and the fuel branch returning
`none` is unreachable from the call site below. -/
def Files.parentWalk (env : ProviderEnv) (fuel : Nat) (parent : Path) : M (Option Path) := fun s =>
  match (Files.provider env parent).checkAccess parent none s with
  | (Except.ok _, s₁) => (Except.ok (some parent), s₁)
  | (Except.error _, s₁) =>
    match parent.getParent, fuel with
    | none, _ => (Except.ok none, s₁)
    | some q, fuel' + 1 => Files.parentWalk env fuel' q s₁
    | some _, 0 => (Except.ok none, s₁)

/-- Embeds the creation `for` loop of `Files.createDirectories`: resolve each
name of `parent.relativize(dir)` in turn and `createAndCheckIsDirectory` it. -/
def Files.createChain (env : ProviderEnv) (child : Path) : List String → M Unit
  | [] => fun s => (Except.ok (), s)
  | name :: rest => fun s =>
    match Files.createAndCheckIsDirectory env (child.resolveName name) s with
    | (Except.ok _, s₁) => Files.createChain env (child.resolveName name) rest s₁
    | (Except.error e, s₁) => (Except.error e, s₁)

/-- Embeds the part of `Files.createDirectories` after its first
`try`/`catch`: record a `SecurityException` from `toAbsolutePath` (any other
exception from it is swallowed, too), search for an accessible ancestor, fail
with the root-directory `FileSystemException` (or the recorded security
failure) when none is found, and otherwise create each missing segment. -/
def Files.createDirectoriesFallback (env : ProviderEnv) (dir0 : Path) : M Path := fun s =>
  let step1 : Option Exc × Path × FS :=
    match (Files.provider env dir0).toAbsolutePath dir0 s with
    | (Except.ok d, s₁) => (none, d, s₁)
    | (Except.error (Exc.security m), s₁) => (some (Exc.security m), dir0, s₁)
    | (Except.error _, s₁) => (none, dir0, s₁)
  match step1 with
  | (se, dir, s₁) =>
    let walked : Except Exc (Option Path) × FS :=
      match dir.getParent with
      | none => (Except.ok none, s₁)
      | some par => Files.parentWalk env par.names.length par s₁
    match walked with
    | (Except.error e, s₂) => (Except.error e, s₂)
    | (Except.ok none, s₂) =>
      (match se with
       | none => (Except.error (Exc.fileSystemException dir.toString none
           "Unable to determine if root directory exists"), s₂)
       | some e => (Except.error e, s₂))
    | (Except.ok (some parent), s₂) =>
      match parent.relativizeNames dir with
      | Except.error e => (Except.error e, s₂)
      | Except.ok segments =>
        match Files.createChain env parent segments s₂ with
        | (Except.ok _, s₃) => (Except.ok dir, s₃)
        | (Except.error e, s₃) => (Except.error e, s₃)

/-- Embeds `Files.createDirectories`: first attempt the directory itself,
returning on success; re-throw a `FileAlreadyExistsException`; on any other
exception fall through to the ancestor walk. -/
def Files.createDirectories (env : ProviderEnv) (dir : Path) : M Path := fun s =>
  match Files.createAndCheckIsDirectory env dir s with
  | (Except.ok _, s₁) => (Except.ok dir, s₁)
  | (Except.error x, s₁) =>
    match x with
    | Exc.fileAlreadyExists f => (Except.error (Exc.fileAlreadyExists f), s₁)
    | _ => Files.createDirectoriesFallback env dir s₁

/-- Embeds `Files.deleteIfExists`: direct delegation. -/
def Files.deleteIfExists (env : ProviderEnv) (path : Path) : M Bool :=
  (Files.provider env path).deleteIfExists path

/-- Embeds `Files.newOutputStream`: direct delegation. -/
def Files.newOutputStream (env : ProviderEnv) (path : Path)
    (options : List StandardOpenOption) : M StreamHandle :=
  (Files.provider env path).newOutputStream path options

/-- Embeds `Files.newInputStream`: direct delegation. -/
def Files.newInputStream (env : ProviderEnv) (path : Path) : M StreamHandle :=
  (Files.provider env path).newInputStream path

/-- Embeds the option-parsing `for` loop of `Files.copyFromStream`: sets the
replace-existing flag on `REPLACE_EXISTING`, throws `NullPointerException` on
a `null` element and `UnsupportedOperationException` on any other option. -/
def Files.copyOptionsLoop (replaceExisting : Bool) :
    List (Option StandardCopyOption) → Except Exc Bool
  | [] => Except.ok replaceExisting
  | some StandardCopyOption.REPLACE_EXISTING :: rest => Files.copyOptionsLoop true rest
  | none :: _ => Except.error (Exc.nullPointer "options contains \x27null\x27")
  | some opt :: _ => Except.error (Exc.unsupportedOperation (opt.label ++ " not supported"))

/-- Embeds the `catch` clause of `Files.copyFromStream`: on a
`FileAlreadyExistsException`, throw the remembered `SecurityException` when
there is one, else re-throw the conflict; every other exception is swallowed
(the clause has no other `throw`). -/
def Files.copyFromStreamCatch (se : Option Exc) (x : Exc) : Except Exc Unit :=
  match x with
  | Exc.fileAlreadyExists f =>
    (match se with
     | some e => Except.error e
     | none => Except.error (Exc.fileAlreadyExists f))
  | _ => Except.ok ()

/-- Embeds the JavaScript evaluation of `outputStream.close()` in the
`finally` clause of `Files.copyFromStream`: when the variable was never
assigned it is `undefined` and the property read raises a `TypeError`. -/
def Files.closeOutputVar (w : StreamWorld) : Option StreamHandle → M Unit
  | none => fun s =>
    (Except.error (Exc.typeError "Cannot read properties of undefined (reading close)"), s)
  | some out => w.close out

/-- Embeds the body of `Files.copyFromStream` after option parsing: optional
pre-delete remembering a `SecurityException` (any other exception from the
pre-delete is swallowed), `newOutputStream` with `CREATE_NEW` and `WRITE`,
piping, the `catch` clause, and the `finally` clause whose own exception
replaces the in-flight one (JavaScript semantics). -/
def Files.copyFromStreamBody (env : ProviderEnv) (w : StreamWorld)
    (inStream : StreamHandle) (target : Path) (replaceExisting : Bool) : M Unit := fun s =>
  let afterDelete : Option Exc × FS :=
    if replaceExisting then
      match Files.deleteIfExists env target s with
      | (Except.ok _, s₁) => (none, s₁)
      | (Except.error (Exc.security m), s₁) => (some (Exc.security m), s₁)
      | (Except.error _, s₁) => (none, s₁)
    else (none, s)
  match afterDelete with
  | (se, s₁) =>
    match Files.newOutputStream env target
        [StandardOpenOption.CREATE_NEW, StandardOpenOption.WRITE] s₁ with
    | (Except.error x, s₂) =>
      (match Files.closeOutputVar w none s₂ with
       | (Except.ok _, s₃) => (Files.copyFromStreamCatch se x, s₃)
       | (Except.error f, s₃) => (Except.error f, s₃))
    | (Except.ok out, s₂) =>
      match w.pipeTo inStream out s₂ with
      | (Except.ok _, s₃) =>
        (match Files.closeOutputVar w (some out) s₃ with
         | (Except.ok _, s₄) => (Except.ok (), s₄)
         | (Except.error f, s₄) => (Except.error f, s₄))
      | (Except.error x, s₃) =>
        (match Files.closeOutputVar w (some out) s₃ with
         | (Except.ok _, s₄) => (Files.copyFromStreamCatch se x, s₄)
         | (Except.error f, s₄) => (Except.error f, s₄))

/-- Embeds `Files.copyFromStream`. A `null`/`undefined` input stream throws
`NullPointerException` first; then `for (let opt of options)` runs: when the
optional `options` argument was omitted it is `undefined` and the iteration
itself raises a `TypeError` before any option is examined. -/
def Files.copyFromStream (env : ProviderEnv) (w : StreamWorld)
    (inputStream : Option StreamHandle) (target : Path)
    (options : Option (List (Option StandardCopyOption))) : M Unit := fun s =>
  match inputStream with
  | none => (Except.error (Exc.nullPointer ""), s)
  | some inStream =>
    match options with
    | none => (Except.error (Exc.typeError "options is not iterable"), s)
    | some opts =>
      match Files.copyOptionsLoop false opts with
      | Except.error e => (Except.error e, s)
      | Except.ok replaceExisting =>
        Files.copyFromStreamBody env w inStream target replaceExisting s

/-- Embeds `Files.copy`: same-provider calls (`===` on the provider objects)
are delegated to the provider's own `copy`; cross-provider calls go through
`copyToForeignTarget`; the target path is returned on success. -/
def Files.copy (env : ProviderEnv) (helper : CopyMoveHelperOps)
    (source target : Path) (options : Option (List (Option StandardCopyOption))) :
    M Path := fun s =>
  let r :=
    if (Files.provider env target).id = (Files.provider env source).id then
      (Files.provider env source).copy source target options
    else
      helper.copyToForeignTarget source target options
  match r s with
  | (Except.ok _, s₁) => (Except.ok target, s₁)
  | (Except.error e, s₁) => (Except.error e, s₁)

/-- Embeds the JavaScript `String.prototype.toLowerCase` used on URL schemes
(character-wise lowering; identical to it on the ASCII schemes at hand). -/
def toLowerCase (s : String) : String :=
  String.mk (s.data.map Char.toLower)

/-- URL as the `FileSystems` facade consumes it: only the `protocol` (scheme)
string is read; parsing is an external concern of the spec. -/
structure URLModel where
  protocol : String
deriving DecidableEq

/-- Environment map argument of `newFileSystem`, passed through opaquely. -/
abbrev EnvModel := List (String × String)

/-- Modelled from the spec: an installed provider as the registry
(`FileSystemProviders`, not under `src/`) hands it to `FileSystems`: its
scheme and its `getFileSystem` / `newFileSystemFromUrl` entry points. The
`FileSystem` result is an opaque handle; `getFileSystem` may return `null`
(the TypeScript signature is `FileSystem | null`). -/
structure InstalledProvider where
  getScheme : String
  getFileSystem : URLModel → Except Exc (Option Nat)
  newFileSystemFromUrl : URLModel → EnvModel → Except Exc Nat

/-- Embeds the registry scan of `FileSystems.getFileSystem`: first provider
whose `getScheme()` equals the (lowercased) scheme wins; `ProviderNotFound`
naming the scheme when none does. -/
def FileSystems.getFileSystemScan (url : URLModel) (scheme : String) :
    List InstalledProvider → Except Exc (Option Nat)
  | [] => Except.error (Exc.providerNotFound ("Provider \"" ++ scheme ++ "\" not found"))
  | p :: rest =>
    if p.getScheme == scheme then p.getFileSystem url
    else FileSystems.getFileSystemScan url scheme rest

/-- Embeds `FileSystems.getFileSystem`: lowercase the URL's scheme, then scan
the installed providers once. (The source's `scheme === null` test after
`toLowerCase()` can never fire and is not modelled.) -/
def FileSystems.getFileSystem (registry : List InstalledProvider) (url : URLModel) :
    Except Exc (Option Nat) :=
  FileSystems.getFileSystemScan url (toLowerCase url.protocol) registry

/-- Embeds the registry scan of `FileSystems.newFileSystem`: on a scheme
match, call `newFileSystemFromUrl`; an `UnsupportedOperationException` from it
is ignored and the scan continues, any other exception is re-thrown;
`ProviderNotFound` naming the scheme when no matching provider succeeded. -/
def FileSystems.newFileSystemScan (url : URLModel) (env : EnvModel) (scheme : String) :
    List InstalledProvider → Except Exc Nat
  | [] => Except.error (Exc.providerNotFound ("Provider \"" ++ scheme ++ "\" not found"))
  | p :: rest =>
    if scheme == p.getScheme then
      match p.newFileSystemFromUrl url env with
      | Except.error (Exc.unsupportedOperation _) =>
        FileSystems.newFileSystemScan url env scheme rest
      | r => r
    else FileSystems.newFileSystemScan url env scheme rest

/-- Embeds `FileSystems.newFileSystem`: lowercase the URL's scheme, then scan
the installed providers with the tolerant-to-unsupported loop. -/
def FileSystems.newFileSystem (registry : List InstalledProvider) (url : URLModel)
    (env : EnvModel) : Except Exc Nat :=
  FileSystems.newFileSystemScan url env (toLowerCase url.protocol) registry

/-- Embeds `Files.move`: same dispatch as `Files.copy`, with the provider's
`move` and `moveToForeignTarget`. -/
def Files.move (env : ProviderEnv) (helper : CopyMoveHelperOps)
    (source target : Path) (options : Option (List (Option StandardCopyOption))) :
    M Path := fun s =>
  let r :=
    if (Files.provider env target).id = (Files.provider env source).id then
      (Files.provider env source).move source target options
    else
      helper.moveToForeignTarget source target options
  match r s with
  | (Except.ok _, s₁) => (Except.ok target, s₁)
  | (Except.error e, s₁) => (Except.error e, s₁)

/-- Basic attributes of a stored entry kind in the modelled backend. -/
def attributesOf : EntryKind → BasicFileAttributes
  | EntryKind.dirEntry => ⟨true, false, false, 0, 0⟩
  | EntryKind.fileEntry => ⟨false, true, false, 0, 0⟩
  | EntryKind.symlinkEntry => ⟨false, false, true, 0, 0⟩

/-- Modelled from the spec: `createDirectory` of the bundled local provider
(`LocalFileSystemProvider`, not under `src/`): fails with
`FileAlreadyExistsException` when the target exists (spec section 4.3,
"idempotent-unsafe"), succeeds when the parent is the root or an existing
directory, and otherwise fails with `NoSuchFileException` (the precise
non-`FileAlreadyExists` failure class for a missing or non-directory parent is
immaterial to every theorem below). -/
def localCreateDirectory (p : Path) : M Unit := fun s =>
  match FS.lookup s p.names with
  | some _ => (Except.error (Exc.fileAlreadyExists p.toString), s)
  | none =>
    let parentNames := p.names.dropLast
    if parentNames.isEmpty then (Except.ok (), (p.names, EntryKind.dirEntry) :: s)
    else
      match FS.lookup s parentNames with
      | some EntryKind.dirEntry => (Except.ok (), (p.names, EntryKind.dirEntry) :: s)
      | _ => (Except.error (Exc.noSuchFile (Path.toString { p with names := parentNames })), s)

/-- Modelled from the spec: attribute read of the bundled local provider:
`NoSuchFileException` for an absent entry, the entry's basic attributes
otherwise (no symlinks are stored, so link options are irrelevant here). -/
def localReadAttributes (p : Path) : M BasicFileAttributes := fun s =>
  match FS.lookup s p.names with
  | some k => (Except.ok (attributesOf k), s)
  | none => (Except.error (Exc.noSuchFile p.toString), s)

/-- Modelled from the spec: the bundled local provider over the modelled
store; `checkAccess` succeeds exactly on existing entries, `deleteIfExists`
removes and reports, `toAbsolutePath` resolves against the root working
directory. -/
def localProvider : FileSystemProvider where
  id := 0
  checkAccess := fun p _ s =>
    match FS.lookup s p.names with
    | some _ => (Except.ok (), s)
    | none => (Except.error (Exc.noSuchFile p.toString), s)
  readAttributesWithType := fun p _ _ => localReadAttributes p
  createDirectory := localCreateDirectory
  deleteIfExists := fun p s =>
    match FS.lookup s p.names with
    | some _ => (Except.ok true, s.filter (fun e => !(e.1 == p.names)))
    | none => (Except.ok false, s)
  newOutputStream := fun _ _ s => (Except.error (Exc.unsupportedOperation "stream"), s)
  newInputStream := fun _ s => (Except.error (Exc.unsupportedOperation "stream"), s)
  copy := fun _ _ _ s => (Except.ok (), s)
  move := fun _ _ _ s => (Except.ok (), s)
  toAbsolutePath := fun p s => (Except.ok (if p.absolute then p else { p with absolute := true }), s)

/-- Provider environment mapping every filesystem to the modelled local
provider. -/
def envLocal : ProviderEnv := fun _ => localProvider

/-- Placeholder provider whose operations are irrelevant to a scenario; used
as the base record for the crafted backends below. -/
def stubProvider : FileSystemProvider where
  id := 0
  checkAccess := fun _ _ s => (Except.error (Exc.ioError "stub"), s)
  readAttributesWithType := fun _ _ _ s => (Except.error (Exc.ioError "stub"), s)
  createDirectory := fun _ s => (Except.error (Exc.ioError "stub"), s)
  deleteIfExists := fun _ s => (Except.ok false, s)
  newOutputStream := fun _ _ s => (Except.error (Exc.ioError "stub"), s)
  newInputStream := fun _ s => (Except.error (Exc.ioError "stub"), s)
  copy := fun _ _ _ s => (Except.ok (), s)
  move := fun _ _ _ s => (Except.ok (), s)
  toAbsolutePath := fun p s => (Except.ok p, s)

/-- Backend on which every access check and every directory creation is denied
with a `SecurityException` (permission denied on every level up to the root). -/
def denyProvider : FileSystemProvider :=
  { stubProvider with
    checkAccess := fun _ _ s => (Except.error (Exc.security "denied"), s)
    createDirectory := fun _ s => (Except.error (Exc.security "denied"), s) }

/-- Provider environment mapping every filesystem to the denying backend. -/
def envDeny : ProviderEnv := fun _ => denyProvider

/-- Backend on which every attribute read and access check is denied with a
`SecurityException` (a path whose status cannot be determined). -/
def secProvider : FileSystemProvider :=
  { stubProvider with
    checkAccess := fun _ _ s => (Except.error (Exc.security "denied"), s)
    readAttributesWithType := fun _ _ _ s => (Except.error (Exc.security "denied"), s) }

/-- Provider environment mapping every filesystem to the security-denying
backend. -/
def envSec : ProviderEnv := fun _ => secProvider

/-- Backend for the replace-existing race: the pre-delete is denied with a
`SecurityException` and opening the target with `CREATE_NEW` loses the race
with `FileAlreadyExistsException`. -/
def raceProvider : FileSystemProvider :=
  { stubProvider with
    deleteIfExists := fun _ s => (Except.error (Exc.security "delete denied"), s)
    newOutputStream := fun p _ s => (Except.error (Exc.fileAlreadyExists p.toString), s) }

/-- Provider environment for the replace-existing race. -/
def envRace : ProviderEnv := fun _ => raceProvider

/-- Backend on which opening the target with `CREATE_NEW` fails with
`FileAlreadyExistsException` (the target already exists). -/
def conflictProvider : FileSystemProvider :=
  { stubProvider with
    newOutputStream := fun p _ s => (Except.error (Exc.fileAlreadyExists p.toString), s) }

/-- Provider environment for the create-new conflict. -/
def envConflict : ProviderEnv := fun _ => conflictProvider

/-- Backend on which a stream copy fully succeeds. -/
def okStreamProvider : FileSystemProvider :=
  { stubProvider with
    newOutputStream := fun _ _ s => (Except.ok 2, s)
    newInputStream := fun _ s => (Except.ok 1, s) }

/-- Provider environment for the succeeding stream copy. -/
def envOkStream : ProviderEnv := fun _ => okStreamProvider

/-- Stream behaviour on which piping, closing and cancelling all succeed. -/
def quietStreams : StreamWorld where
  pipeTo := fun _ _ s => (Except.ok (), s)
  close := fun _ s => (Except.ok (), s)
  cancel := fun _ s => (Except.ok (), s)

/-- Two-provider environment (identifiers 0 and 1) for the copy/move dispatch
scenarios. -/
def envTwo : ProviderEnv := fun n => if n = 0 then stubProvider else { stubProvider with id := 1 }

/-- Recording cross-provider helper: fails so that its use is observable. -/
def markerHelper : CopyMoveHelperOps where
  copyToForeignTarget := fun _ _ _ s => (Except.error (Exc.ioError "foreign copy"), s)
  moveToForeignTarget := fun _ _ _ s => (Except.error (Exc.ioError "foreign move"), s)

/-- Registered provider under the mixed-case scheme "A". -/
def upperProviderA : InstalledProvider where
  getScheme := "A"
  getFileSystem := fun _ => Except.ok (some 7)
  newFileSystemFromUrl := fun _ _ => Except.ok 7

/-- Installed provider under scheme "zip" that does not support creating new
filesystem instances. -/
def zipNoCreate : InstalledProvider where
  getScheme := "zip"
  getFileSystem := fun _ => Except.ok (some 3)
  newFileSystemFromUrl := fun _ _ => Except.error (Exc.unsupportedOperation "newFileSystem")

/-- Installed provider under scheme "zip" that creates instance 5. -/
def zipCreate : InstalledProvider where
  getScheme := "zip"
  getFileSystem := fun _ => Except.ok (some 5)
  newFileSystemFromUrl := fun _ _ => Except.ok 5

/-- Example paths and stores for the concrete scenarios. -/
def dirD : Path := ⟨0, true, ["d"]⟩

/-- Path /f/d whose immediate parent /f is a regular file in `fileOnlyStore`. -/
def dirFD : Path := ⟨0, true, ["f", "d"]⟩

/-- Path /a/b used for the inaccessible-ancestor scenario. -/
def dirAB : Path := ⟨0, true, ["a", "b"]⟩

/-- Target path /t of the stream-copy scenarios. -/
def targetT : Path := ⟨0, true, ["t"]⟩

/-- Source path /s of the dispatch scenarios. -/
def srcS : Path := ⟨0, true, ["s"]⟩

/-- Target path on a different filesystem (provider 1). -/
def tgtOther : Path := ⟨1, true, ["t"]⟩

/-- Probe path /x for the attribute and existence scenarios. -/
def pathX : Path := ⟨0, true, ["x"]⟩

/-- Store holding the single regular file /f. -/
def fileOnlyStore : FS := [(["f"], EntryKind.fileEntry)]

/-- Store holding the single directory /d. -/
def dirOnlyStore : FS := [(["d"], EntryKind.dirEntry)]

/-- C1. Claimed: a `FileAlreadyExists` from creating a segment is suppressed
exactly when the existing entry is a directory (no-follow check); calling
`createDirectories` twice on the same path succeeds both times; and
`createDirectories` on a path whose immediate parent exists as a regular file
fails with `FileAlreadyExists`. The first two conjuncts of this theorem show
the first two parts hold on the modelled local backend (/d created once, then
created again over the existing directory). The third conjunct is the bug:
with /f a regular file, `createDirectories` on /f/d returns /f/d successfully
and creates nothing, because `createAndCheckIsDirectory` swallows the
non-`FileAlreadyExists` failure of the segment creation instead of
propagating it. -/
theorem claim_c1_createDirectories_parent_file :
    Files.createDirectories envLocal dirD [] = (Except.ok dirD, dirOnlyStore) ∧
    Files.createDirectories envLocal dirD dirOnlyStore = (Except.ok dirD, dirOnlyStore) ∧
    Files.createDirectories envLocal dirFD fileOnlyStore = (Except.ok dirFD, fileOnlyStore) := by
  refine ⟨by decide, by decide, by decide⟩

/-- C8. Claimed: when the access check fails on every ancestor up to the root,
`createDirectories` fails explaining that a root directory's existence could
not be determined (or with the recorded security failure). First conjunct (the
bug): on a backend denying every access check and creation,
`createDirectories` returns successfully — the catch-all inside
`createAndCheckIsDirectory` swallows the failure, so the ancestor walk is
unreachable. Second conjunct: the walk code itself (`createDirectoriesFallback`),
executed directly on the same scenario, does produce the claimed
root-directory failure. -/
theorem claim_c8_root_walk_unreachable :
    Files.createDirectories envDeny dirAB [] = (Except.ok dirAB, []) ∧
    Files.createDirectoriesFallback envDeny dirAB [] =
      (Except.error (Exc.fileSystemException "/a/b" none
        "Unable to determine if root directory exists"), []) := by
  refine ⟨by decide, by decide⟩

/-- C2. Claimed: with `REPLACE_EXISTING`, a `SecurityException` from the
pre-delete is remembered, and on a create-new `FileAlreadyExists` conflict the
remembered exception is thrown in its place (the conflict itself when nothing
was remembered). First conjunct: the `catch` clause indeed selects the
remembered `SecurityException`. Second conjunct (the bug): the call as a whole
throws a `TypeError` instead — the `finally` clause evaluates
`outputStream.close()` with `outputStream` still `undefined` (the open threw
before assigning it), and the `TypeError` replaces the selected exception. -/
theorem claim_c2_replace_existing_security :
    Files.copyFromStreamCatch (some (Exc.security "delete denied"))
        (Exc.fileAlreadyExists "/t") = Except.error (Exc.security "delete denied") ∧
    Files.copyFromStream envRace quietStreams (some 1) targetT
        (some [some StandardCopyOption.REPLACE_EXISTING]) [] =
      (Except.error (Exc.typeError "Cannot read properties of undefined (reading close)"), []) := by
  refine ⟨by decide, by decide⟩

/-- C9. Claimed: `copyFromStream` closes the output stream on every exit path,
including when opening it failed, and a cleanup failure does not mask the
primary failure. First conjunct: the `catch` clause re-throws the
`FileAlreadyExists` conflict when no security failure was remembered. Second
conjunct (the bug): when opening the output stream failed, the `finally`
clause calls `close()` on the still-`undefined` variable and the resulting
`TypeError` masks the primary `FileAlreadyExists` failure. -/
theorem claim_c9_cleanup_masks_primary :
    Files.copyFromStreamCatch none (Exc.fileAlreadyExists "/t") =
      Except.error (Exc.fileAlreadyExists "/t") ∧
    Files.copyFromStream envConflict quietStreams (some 1) targetT (some []) [] =
      (Except.error (Exc.typeError "Cannot read properties of undefined (reading close)"), []) := by
  refine ⟨by decide, by decide⟩

/-- C10. Calling `copyFromStream` with the `options` argument omitted
(`undefined`) throws a `TypeError` from iterating `undefined`, for every
provider, stream and target, instead of treating it as an empty option list;
passing an explicit empty array proceeds into the body with the
replace-existing flag off, and (third conjunct) completes successfully on a
backend where the streaming succeeds. -/
theorem claim_c10_options_must_be_passed (env : ProviderEnv) (w : StreamWorld)
    (inStream : StreamHandle) (target : Path) (s : FS) :
    Files.copyFromStream env w (some inStream) target none s =
      (Except.error (Exc.typeError "options is not iterable"), s) ∧
    Files.copyFromStream env w (some inStream) target (some []) s =
      Files.copyFromStreamBody env w inStream target false s ∧
    Files.copyFromStream envOkStream quietStreams (some 1) targetT (some []) [] =
      (Except.ok (), []) := by
  refine ⟨rfl, rfl, by decide⟩

/-- C3 counterexample. Claimed: `size` (among others) reads via
`readAttributesWithType` and converts any failure into a swallowed result,
never throwing. On a backend whose attribute read is denied, `Files.size`
propagates the `SecurityException` — it throws. -/
theorem claim_c3_counterexample_size_throws :
    Files.size envSec pathX [] = (Except.error (Exc.security "denied"), []) := by decide

/-- C3 amended: `isDirectory`, `isRegularFile` and `isSymbolicLink` read via
`readAttributesWithType` and convert any failure into `false`, never throwing;
`size` and `getLastModifiedTime` also read via `readAttributesWithType` but
propagate any failure unchanged. -/
theorem claim_c3_attribute_getters (env : ProviderEnv) (path : Path)
    (opts : Option (List LinkOption)) (s : FS) :
    (∃ b s₁, Files.isDirectory env path opts s = (Except.ok b, s₁)) ∧
    (∃ b s₁, Files.isRegularFile env path opts s = (Except.ok b, s₁)) ∧
    (∃ b s₁, Files.isSymbolicLink env path s = (Except.ok b, s₁)) ∧
    (∀ e s₁, Files.readAttributesWithType env path none opts s = (Except.error e, s₁) →
      Files.isDirectory env path opts s = (Except.ok false, s₁) ∧
      Files.isRegularFile env path opts s = (Except.ok false, s₁) ∧
      Files.getLastModifiedTime env path opts s = (Except.error e, s₁)) ∧
    (∀ e s₁, Files.readAttributesWithType env path none
        (some [LinkOption.NOFOLLOW_LINKS]) s = (Except.error e, s₁) →
      Files.isSymbolicLink env path s = (Except.ok false, s₁)) ∧
    (∀ e s₁, Files.readAttributesWithType env path none none s = (Except.error e, s₁) →
      Files.size env path s = (Except.error e, s₁)) := by
  refine ⟨?_, ?_, ?_, ?_, ?_, ?_⟩
  · rcases h : Files.readAttributesWithType env path none opts s with ⟨r, s₁⟩
    cases r with
    | ok a => exact ⟨a.isDirectory, s₁, by simp [Files.isDirectory, h]⟩
    | error e => exact ⟨false, s₁, by simp [Files.isDirectory, h]⟩
  · rcases h : Files.readAttributesWithType env path none opts s with ⟨r, s₁⟩
    cases r with
    | ok a => exact ⟨a.isRegularFile, s₁, by simp [Files.isRegularFile, h]⟩
    | error e => exact ⟨false, s₁, by simp [Files.isRegularFile, h]⟩
  · rcases h : Files.readAttributesWithType env path none
        (some [LinkOption.NOFOLLOW_LINKS]) s with ⟨r, s₁⟩
    cases r with
    | ok a => exact ⟨a.isSymbolicLink, s₁, by simp [Files.isSymbolicLink, h]⟩
    | error e => exact ⟨false, s₁, by simp [Files.isSymbolicLink, h]⟩
  · intro e s₁ h
    exact ⟨by simp [Files.isDirectory, h], by simp [Files.isRegularFile, h],
      by simp [Files.getLastModifiedTime, h]⟩
  · intro e s₁ h
    simp [Files.isSymbolicLink, h]
  · intro e s₁ h
    simp [Files.size, h]

/-- C3 witness: on the security-denying backend, the amended theorem yields
the swallowed `false` for `isDirectory` and for `isSymbolicLink`, and the
propagated failure for `size`. -/
theorem claim_c3_attribute_getters_witness :
    Files.isDirectory envSec pathX none [] = (Except.ok false, []) ∧
    Files.isSymbolicLink envSec pathX [] = (Except.ok false, []) ∧
    Files.size envSec pathX [] = (Except.error (Exc.security "denied"), []) :=
  ⟨((claim_c3_attribute_getters envSec pathX none []).2.2.2.1 (Exc.security "denied") [] rfl).1,
   (claim_c3_attribute_getters envSec pathX none []).2.2.2.2.1 (Exc.security "denied") [] rfl,
   (claim_c3_attribute_getters envSec pathX none []).2.2.2.2.2 (Exc.security "denied") [] rfl⟩

/-- C4. When the shared existence check of `Files.exists`/`Files.notExists`
throws: `exists` returns `false` on any failure; `notExists` returns `true`
exactly when the failure is `NoSuchFile`; on any other failure (such as a
`SecurityException`) both return `false` simultaneously, so the two predicates
are not logical complements. -/
theorem claim_c4_exists_notExists (env : ProviderEnv) (path : Path)
    (opts : Option (List LinkOption)) (s s₁ : FS) (e : Exc)
    (h : Files.existsCheck env path opts s = (Except.error e, s₁)) :
    Files.exists env path opts s = (Except.ok false, s₁) ∧
    (Files.notExists env path opts s = (Except.ok true, s₁) ↔ ∃ f, e = Exc.noSuchFile f) ∧
    ((∀ f, e ≠ Exc.noSuchFile f) →
      Files.exists env path opts s = (Except.ok false, s₁) ∧
      Files.notExists env path opts s = (Except.ok false, s₁)) := by
  refine ⟨by simp [Files.exists, h], ?_, ?_⟩
  · simp only [Files.notExists, h]
    cases e <;> simp
  · intro hne
    refine ⟨by simp [Files.exists, h], ?_⟩
    simp only [Files.notExists, h]

/-- C4 witness: on the security-denying backend both predicates return
`false` for the same path at the same time. -/
theorem claim_c4_exists_notExists_witness :
    Files.existsCheck envSec pathX none [] = (Except.error (Exc.security "denied"), []) ∧
    Files.exists envSec pathX none [] = (Except.ok false, []) ∧
    Files.notExists envSec pathX none [] = (Except.ok false, []) := by
  have h : Files.existsCheck envSec pathX none [] =
      (Except.error (Exc.security "denied"), []) := by decide
  have r := claim_c4_exists_notExists envSec pathX none [] [] (Exc.security "denied") h
  exact ⟨h, r.1, (r.2.2 (fun f hf => Exc.noConfusion hf)).2⟩

/-- C5 counterexample. Claimed: the registry scan compares schemes
case-insensitively, so a URL scheme differing only in case from a registered
scheme resolves to that registered provider. With the provider registered
under scheme "A" and a URL of scheme "a" (differing only in case), the lookup
fails with `ProviderNotFound` instead of resolving: only the URL's side of the
comparison is lowercased. -/
theorem claim_c5_counterexample_case :
    FileSystems.getFileSystem [upperProviderA] ⟨"a"⟩ =
      Except.error (Exc.providerNotFound "Provider \"a\" not found") := by decide

/-- C5 amended: `getFileSystem` scans the registry once, lowercases the URL's
scheme and compares it for exact equality with each provider's registered
scheme; the first provider whose registered scheme equals the lowercased URL
scheme is consulted, and with no such provider the call fails with
`ProviderNotFound` naming the lowercased scheme. (Hence a URL scheme differing
only in case from an all-lowercase registered scheme does resolve, but a
provider registered under a scheme containing an uppercase letter is never
matched.) -/
theorem claim_c5_registry_scan (registry : List InstalledProvider) (url : URLModel) :
    FileSystems.getFileSystem registry url =
      match registry.find? (fun p => p.getScheme == toLowerCase url.protocol) with
      | some p => p.getFileSystem url
      | none => Except.error (Exc.providerNotFound
          ("Provider \"" ++ toLowerCase url.protocol ++ "\" not found")) := by
  unfold FileSystems.getFileSystem
  induction registry with
  | nil => rfl
  | cons p rest ih =>
    simp only [FileSystems.getFileSystemScan, List.find?]
    cases hb : p.getScheme == toLowerCase url.protocol <;> simp [hb, ih]

/-- C6. `newFileSystem` matches providers with the same comparison as
`getFileSystem` (lowercased URL scheme against the registered scheme): an
empty registry (and, inductively, a registry with no match) fails with
`ProviderNotFound` naming the scheme; a non-matching head provider is skipped;
a matching head provider whose `newFileSystemFromUrl` throws
`UnsupportedOperation` is skipped and the scan continues with the remaining
providers; a matching head provider that returns a filesystem decides the
call; and any other exception from a matching head provider propagates
unchanged. -/
theorem claim_c6_newFileSystem_scan (url : URLModel) (env : EnvModel)
    (p : InstalledProvider) (rest : List InstalledProvider) :
    (FileSystems.newFileSystem [] url env = Except.error (Exc.providerNotFound
        ("Provider \"" ++ toLowerCase url.protocol ++ "\" not found"))) ∧
    (toLowerCase url.protocol ≠ p.getScheme →
      FileSystems.newFileSystem (p :: rest) url env =
        FileSystems.newFileSystem rest url env) ∧
    (toLowerCase url.protocol = p.getScheme →
      (∀ m, p.newFileSystemFromUrl url env = Except.error (Exc.unsupportedOperation m) →
        FileSystems.newFileSystem (p :: rest) url env =
          FileSystems.newFileSystem rest url env) ∧
      (∀ n, p.newFileSystemFromUrl url env = Except.ok n →
        FileSystems.newFileSystem (p :: rest) url env = Except.ok n) ∧
      (∀ e, p.newFileSystemFromUrl url env = Except.error e →
        (∀ m, e ≠ Exc.unsupportedOperation m) →
        FileSystems.newFileSystem (p :: rest) url env = Except.error e)) := by
  refine ⟨rfl, ?_, ?_⟩
  · intro hne
    simp [FileSystems.newFileSystem, FileSystems.newFileSystemScan,
      beq_eq_false_iff_ne.mpr hne]
  · intro heq
    refine ⟨?_, ?_, ?_⟩
    · intro m hm
      simp [FileSystems.newFileSystem, FileSystems.newFileSystemScan,
        beq_iff_eq.mpr heq, hm]
    · intro n hn
      simp [FileSystems.newFileSystem, FileSystems.newFileSystemScan,
        beq_iff_eq.mpr heq, hn]
    · intro e he hne
      simp only [FileSystems.newFileSystem, FileSystems.newFileSystemScan,
        beq_iff_eq.mpr heq, if_true, he]
      cases e
      case unsupportedOperation m => exact absurd rfl (hne m)
      all_goals rfl

/-- C6 witness: with two providers registered under the scheme "zip", the
first of which does not support creating filesystem instances, `newFileSystem`
skips over it and the second provider produces the filesystem. -/
theorem claim_c6_newFileSystem_scan_witness :
    FileSystems.newFileSystem [zipNoCreate, zipCreate] ⟨"zip"⟩ [] =
      FileSystems.newFileSystem [zipCreate] ⟨"zip"⟩ [] ∧
    FileSystems.newFileSystem [zipCreate] ⟨"zip"⟩ [] = Except.ok 5 := by
  have h1 : toLowerCase (URLModel.mk "zip").protocol = zipNoCreate.getScheme := by decide
  have h2 : toLowerCase (URLModel.mk "zip").protocol = zipCreate.getScheme := by decide
  exact ⟨((claim_c6_newFileSystem_scan ⟨"zip"⟩ [] zipNoCreate [zipCreate]).2.2 h1).1
      "newFileSystem" rfl,
    ((claim_c6_newFileSystem_scan ⟨"zip"⟩ [] zipCreate []).2.2 h2).2.1 5 rfl⟩

/-- C7. `Files.copy` and `Files.move` delegate to the provider's own
`copy`/`move` exactly when source and target resolve to the same provider
object, and to the cross-provider streaming helper otherwise; in either case a
successful transfer returns the target path and a failing one propagates the
failure. -/
theorem claim_c7_copy_move_dispatch (env : ProviderEnv) (helper : CopyMoveHelperOps)
    (source target : Path) (opts : Option (List (Option StandardCopyOption))) (s : FS) :
    ((Files.provider env target).id = (Files.provider env source).id →
      ∀ r s₁, (Files.provider env source).copy source target opts s = (r, s₁) →
        Files.copy env helper source target opts s =
          ((match r with
            | Except.ok _ => Except.ok target
            | Except.error e => Except.error e), s₁)) ∧
    ((Files.provider env target).id ≠ (Files.provider env source).id →
      ∀ r s₁, helper.copyToForeignTarget source target opts s = (r, s₁) →
        Files.copy env helper source target opts s =
          ((match r with
            | Except.ok _ => Except.ok target
            | Except.error e => Except.error e), s₁)) ∧
    ((Files.provider env target).id = (Files.provider env source).id →
      ∀ r s₁, (Files.provider env source).move source target opts s = (r, s₁) →
        Files.move env helper source target opts s =
          ((match r with
            | Except.ok _ => Except.ok target
            | Except.error e => Except.error e), s₁)) ∧
    ((Files.provider env target).id ≠ (Files.provider env source).id →
      ∀ r s₁, helper.moveToForeignTarget source target opts s = (r, s₁) →
        Files.move env helper source target opts s =
          ((match r with
            | Except.ok _ => Except.ok target
            | Except.error e => Except.error e), s₁)) := by
  refine ⟨?_, ?_, ?_, ?_⟩
  · intro h r s₁ hr
    simp only [Files.copy, if_pos h, hr]
    cases r <;> rfl
  · intro h r s₁ hr
    simp only [Files.copy, if_neg h, hr]
    cases r <;> rfl
  · intro h r s₁ hr
    simp only [Files.move, if_pos h, hr]
    cases r <;> rfl
  · intro h r s₁ hr
    simp only [Files.move, if_neg h, hr]
    cases r <;> rfl

/-- C7 witness: with source and target on the same provider the provider's own
transfer runs (and the target path is returned); with the target on a
different provider the streaming helper runs (here observably failing with its
marker error). -/
theorem claim_c7_copy_move_dispatch_witness :
    Files.copy envTwo markerHelper srcS targetT none [] = (Except.ok targetT, []) ∧
    Files.copy envTwo markerHelper srcS tgtOther none [] =
      (Except.error (Exc.ioError "foreign copy"), []) ∧
    Files.move envTwo markerHelper srcS tgtOther none [] =
      (Except.error (Exc.ioError "foreign move"), []) := by
  refine ⟨(claim_c7_copy_move_dispatch envTwo markerHelper srcS targetT none []).1
      (by decide) (Except.ok ()) [] rfl,
    (claim_c7_copy_move_dispatch envTwo markerHelper srcS tgtOther none []).2.1
      (by decide) (Except.error (Exc.ioError "foreign copy")) [] rfl,
    (claim_c7_copy_move_dispatch envTwo markerHelper srcS tgtOther none []).2.2.2
      (by decide) (Except.error (Exc.ioError "foreign move")) [] rfl⟩

end Fsjs
